import Mathlib

/-!
Shallow embedding of the wchisp WCH ISP flashing tool (Rust sources under
src/): the binary protocol (protocol.rs, constants.rs), the chip database
model (device.rs) and the flashing session operations (flashing.rs).

Conventions of the embedding:
* machine integers are modelled as Nat with explicit reductions mod 2^8,
  2^16, 2^32 where the source truncates or wraps;
* fallible Rust code (anyhow::Result) is modelled with Except String;
  Rust panics (slice index out of range, unimplemented!) are modelled as
  Option.none or as a distinguished "panic" error, as noted per function;
* the transport is modelled as an oracle mapping each issued Command to
  the transfer outcome, and every session operation additionally returns
  the list of commands it issued, in order.
-/

namespace Wchisp

/-! Constants from constants.rs. -/

def CFG_MASK_RDPR_USER_DATA_WPR : Nat := 0x07

def CFG_MASK_ALL : Nat := 0x1f

def commands.IDENTIFY : Nat := 0xa1

def commands.ISP_END : Nat := 0xa2

def commands.ISP_KEY : Nat := 0xa3

def commands.ERASE : Nat := 0xa4

def commands.PROGRAM : Nat := 0xa5

def commands.VERIFY : Nat := 0xa6

def commands.READ_CONFIG : Nat := 0xa7

def commands.WRITE_CONFIG : Nat := 0xa8

def commands.DATA_ERASE : Nat := 0xa9

def commands.DATA_PROGRAM : Nat := 0xaa

def commands.DATA_READ : Nat := 0xab

def commands.SET_BAUD : Nat := 0xc5

/-! Byte-buffer helpers mirroring the scroll crate's pread/pwrite on byte
slices: a write or read beyond the end of the buffer is an error. -/

/-- Little-endian 2-byte encoding of a value (u16). -/
def u16le (v : Nat) : List Nat := [v % 256, v / 256 % 256]

/-- Little-endian 4-byte encoding of a value (u32). -/
def u32le (v : Nat) : List Nat :=
  [v % 256, v / 256 % 256, v / 65536 % 256, v / 16777216 % 256]

/-- scroll pwrite of a byte string into a fixed-size buffer: fails (none)
when the write would run past the end of the buffer, otherwise splices the
bytes in place. -/
def pwriteBytes (buf : List Nat) (off : Nat) (bytes : List Nat) : Option (List Nat) :=
  if off + bytes.length ≤ buf.length then
    some (buf.take off ++ bytes ++ buf.drop (off + bytes.length))
  else none

/-- scroll pread of a little-endian u16 from a byte buffer; fails when
fewer than two bytes are available at the offset. -/
def pread_u16le (raw : List Nat) (off : Nat) : Except String Nat :=
  if off + 2 ≤ raw.length then
    .ok (raw.getD off 0 % 256 + 256 * (raw.getD (off + 1) 0 % 256))
  else .error "pread out of bounds"

/-! The WCH ISP command type, from protocol.rs. -/

inductive Command where
  | Identify (device_id : Nat) (device_type : Nat)
  | IspEnd (reason : Nat)
  | IspKey (key : List Nat)
  | Erase (sectors : Nat)
  | Program (address : Nat) (padding : Nat) (data : List Nat)
  | Verify (address : Nat) (padding : Nat) (data : List Nat)
  | ReadConfig (bit_mask : Nat)
  | WriteConfig (bit_mask : Nat) (data : List Nat)
  | DataErase (sectors : Nat)
  | DataProgram (address : Nat) (padding : Nat) (data : List Nat)
  | DataRead (address : Nat) (len : Nat)
  | WriteOTP (v : Nat)
  | ReadOTP (v : Nat)
  | SetBaud (baudrate : Nat)
deriving DecidableEq, Repr

/-- Response to a command, from protocol.rs: Ok carries the payload, Err
carries the non-zero status code and the payload. -/
inductive Response where
  | Ok (data : List Nat)
  | Err (code : Nat) (data : List Nat)
deriving DecidableEq, Repr

def Response.is_ok : Response → Bool
  | .Ok _ => true
  | .Err _ _ => false

def Response.payload : Response → List Nat
  | .Ok p => p
  | .Err _ p => p

/-- The 16-byte magic string sent in the Identify command. -/
def mcuIspMagic : List Nat :=
  [0x4d, 0x43, 0x55, 0x20, 0x49, 0x53, 0x50, 0x20,
   0x26, 0x20, 0x57, 0x43, 0x48, 0x2e, 0x43, 0x4e]

/-- Command::into_raw from protocol.rs: encode a command into its raw
frame.  The WriteOTP and ReadOTP arms hit unimplemented! in the source
(a panic), modelled as none; the other arms build a buffer and splice
fields into it with scroll pwrite exactly as the source does.  Casts
`as u8` / `as u16` are modelled as reductions mod 256 / 65536, and the
u16 subtraction `buf.len() as u16 - 3` as wrapping arithmetic mod 65536. -/
def Command.into_raw : Command → Option (List Nat)
  | .Identify device_id device_type =>
      some ([commands.IDENTIFY, 0x12, 0, device_id, device_type] ++ mcuIspMagic)
  | .IspEnd reason => some [commands.ISP_END, 0x01, 0, reason]
  | .IspKey key => some ([commands.ISP_KEY, key.length % 256, 0x00] ++ key)
  | .Erase sectors =>
      pwriteBytes [commands.ERASE, 0x04, 0x00, 0x00, 0x00, 0x00, 0x00] 3 (u32le sectors)
  | .Program address padding data =>
      (pwriteBytes ((List.replicate (8 + data.length) 0).set 0 commands.PROGRAM)
          3 (u32le address)).bind fun buf =>
      (pwriteBytes (buf.set 7 padding) 8 data).bind fun buf =>
      pwriteBytes buf 1 (u16le (((8 + data.length) % 65536 + 65536 - 3) % 65536))
  | .Verify address padding data =>
      (pwriteBytes ((List.replicate (8 + data.length) 0).set 0 commands.VERIFY)
          3 (u32le address)).bind fun buf =>
      (pwriteBytes (buf.set 7 padding) 8 data).bind fun buf =>
      pwriteBytes buf 1 (u16le (((8 + data.length) % 65536 + 65536 - 3) % 65536))
  | .ReadConfig bit_mask => some [commands.READ_CONFIG, 0x02, 0x00, bit_mask, 0x00]
  | .WriteConfig bit_mask data =>
      (pwriteBytes ((List.replicate (5 + data.length) 0).set 0 commands.WRITE_CONFIG)
          1 (u16le ((1 + data.length % 65536) % 65536))).bind fun buf =>
      pwriteBytes (buf.set 3 bit_mask) 5 data
  | .DataErase sectors =>
      some [commands.DATA_ERASE, 0x05, 0x00, 0x00, 0x00, 0x00, 0x00, sectors % 256]
  | .DataProgram address padding data =>
      (pwriteBytes ((List.replicate (8 + data.length) 0).set 0 commands.DATA_PROGRAM)
          3 (u32le address)).bind fun buf =>
      (pwriteBytes (buf.set 7 padding) 8 data).bind fun buf =>
      pwriteBytes buf 1 (u16le (((8 + data.length) % 65536 + 65536 - 3) % 65536))
  | .DataRead address len =>
      (pwriteBytes (((List.replicate 9 0).set 0 commands.DATA_READ).set 1 6)
          3 (u32le address)).bind fun buf =>
      pwriteBytes buf 7 (u16le len)
  | .SetBaud baudrate => some ([commands.SET_BAUD, 0x04, 0x00] ++ u32le baudrate)
  | .WriteOTP _ => none
  | .ReadOTP _ => none

/-- Response::from_raw from protocol.rs: decode a raw response frame.
The source tests a constant `if true` (with a FIXME asking whether it
should instead test the status byte raw[1]); consequently the branch
building Response::Err is dead code.  Embedded literally, constant test
included. -/
def Response.from_raw (raw : List Nat) : Except String Response :=
  if true then
    match pread_u16le raw 2 with
    | .error e => .error e
    | .ok len =>
      let remain := raw.drop 4
      if remain.length = len then .ok (Response.Ok remain)
      else .error "Invalid response"
  else
    .ok (Response.Err (raw.getD 1 0) (raw.drop 2))

/-! Helper lemmas about pwriteBytes. -/

theorem pwriteBytes_pos (buf : List Nat) (off : Nat) (bytes : List Nat)
    (h : off + bytes.length ≤ buf.length) :
    pwriteBytes buf off bytes = some (buf.take off ++ bytes ++ buf.drop (off + bytes.length)) := by
  simp [pwriteBytes, h]

theorem pwriteBytes_length (buf : List Nat) (off : Nat) (bytes out : List Nat)
    (h : pwriteBytes buf off bytes = some out) : out.length = buf.length := by
  unfold pwriteBytes at h
  split at h
  · cases h
    simp only [List.length_append, List.length_take, List.length_drop]
    omega
  · cases h

/-- C1: the spec claims a received frame with non-zero status byte decodes
to a DeviceError carrying that code, while a status byte 0x00 with a
consistent length decodes to OK.  On the code the decoder ignores the
status byte entirely (the error branch sits behind a constant `if true`):
the frame a1 01 0200 de ad, whose status byte is 0x01, still decodes to
an OK response, exactly as the status-0x00 frame does. -/
theorem c1_from_raw_ignores_status_byte :
    Response.from_raw [0xa1, 0x01, 0x02, 0x00, 0xde, 0xad] = .ok (Response.Ok [0xde, 0xad]) ∧
    Response.from_raw [0xa1, 0x00, 0x02, 0x00, 0xde, 0xad] = .ok (Response.Ok [0xde, 0xad]) := by
  exact ⟨rfl, rfl⟩

/-- C9: Command::into_raw returns an encoded frame for every command
variant except WriteOTP and ReadOTP, whose arms hit unimplemented!
(modelled as none): encoding fails exactly on the two OTP variants. -/
theorem c9_into_raw_total_except_otp (c : Command) :
    c.into_raw = none ↔ (∃ v, c = Command.WriteOTP v ∨ c = Command.ReadOTP v) := by
  cases c with
  | Identify a b => simp [Command.into_raw]
  | IspEnd r => simp [Command.into_raw]
  | IspKey k => simp [Command.into_raw]
  | Erase s => simp [Command.into_raw, pwriteBytes, u32le]
  | Program a p d =>
    obtain ⟨b1, h1⟩ : ∃ x, pwriteBytes ((List.replicate (8 + d.length) 0).set 0 commands.PROGRAM)
        3 (u32le a) = some x :=
      ⟨_, pwriteBytes_pos _ _ _ (by simp [u32le]; omega)⟩
    have l1 : b1.length = 8 + d.length := by
      simpa using pwriteBytes_length _ _ _ _ h1
    obtain ⟨b2, h2⟩ : ∃ x, pwriteBytes (b1.set 7 p) 8 d = some x :=
      ⟨_, pwriteBytes_pos _ _ _ (by simp [l1])⟩
    have l2 : b2.length = 8 + d.length := by
      have := pwriteBytes_length _ _ _ _ h2
      simpa [l1] using this
    obtain ⟨b3, h3⟩ : ∃ x, pwriteBytes b2 1 (u16le ((8 + d.length + 65533) % 65536)) = some x :=
      ⟨_, pwriteBytes_pos _ _ _ (by simp [u16le, l2]; omega)⟩
    simp [Command.into_raw, h1, h2, h3]
  | Verify a p d =>
    obtain ⟨b1, h1⟩ : ∃ x, pwriteBytes ((List.replicate (8 + d.length) 0).set 0 commands.VERIFY)
        3 (u32le a) = some x :=
      ⟨_, pwriteBytes_pos _ _ _ (by simp [u32le]; omega)⟩
    have l1 : b1.length = 8 + d.length := by
      simpa using pwriteBytes_length _ _ _ _ h1
    obtain ⟨b2, h2⟩ : ∃ x, pwriteBytes (b1.set 7 p) 8 d = some x :=
      ⟨_, pwriteBytes_pos _ _ _ (by simp [l1])⟩
    have l2 : b2.length = 8 + d.length := by
      have := pwriteBytes_length _ _ _ _ h2
      simpa [l1] using this
    obtain ⟨b3, h3⟩ : ∃ x, pwriteBytes b2 1 (u16le ((8 + d.length + 65533) % 65536)) = some x :=
      ⟨_, pwriteBytes_pos _ _ _ (by simp [u16le, l2]; omega)⟩
    simp [Command.into_raw, h1, h2, h3]
  | ReadConfig m => simp [Command.into_raw]
  | WriteConfig m d =>
    obtain ⟨b1, h1⟩ : ∃ x, pwriteBytes ((List.replicate (5 + d.length) 0).set 0 commands.WRITE_CONFIG)
        1 (u16le ((1 + d.length) % 65536)) = some x :=
      ⟨_, pwriteBytes_pos _ _ _ (by simp [u16le]; omega)⟩
    have l1 : b1.length = 5 + d.length := by
      simpa using pwriteBytes_length _ _ _ _ h1
    obtain ⟨b2, h2⟩ : ∃ x, pwriteBytes (b1.set 3 m) 5 d = some x :=
      ⟨_, pwriteBytes_pos _ _ _ (by simp [l1])⟩
    simp [Command.into_raw, h1, h2]
  | DataErase s => simp [Command.into_raw]
  | DataProgram a p d =>
    obtain ⟨b1, h1⟩ : ∃ x, pwriteBytes ((List.replicate (8 + d.length) 0).set 0 commands.DATA_PROGRAM)
        3 (u32le a) = some x :=
      ⟨_, pwriteBytes_pos _ _ _ (by simp [u32le]; omega)⟩
    have l1 : b1.length = 8 + d.length := by
      simpa using pwriteBytes_length _ _ _ _ h1
    obtain ⟨b2, h2⟩ : ∃ x, pwriteBytes (b1.set 7 p) 8 d = some x :=
      ⟨_, pwriteBytes_pos _ _ _ (by simp [l1])⟩
    have l2 : b2.length = 8 + d.length := by
      have := pwriteBytes_length _ _ _ _ h2
      simpa [l1] using this
    obtain ⟨b3, h3⟩ : ∃ x, pwriteBytes b2 1 (u16le ((8 + d.length + 65533) % 65536)) = some x :=
      ⟨_, pwriteBytes_pos _ _ _ (by simp [u16le, l2]; omega)⟩
    simp [Command.into_raw, h1, h2, h3]
  | DataRead a n =>
    simp [Command.into_raw, pwriteBytes, u32le, u16le]
  | WriteOTP v => simp [Command.into_raw]
  | ReadOTP v => simp [Command.into_raw]
  | SetBaud b => simp [Command.into_raw]

/-! The chip database model, from device.rs.  Fields not consulted by any
verified operation (names, descriptions, explanation tables, support
flags) are omitted. -/

/-- A range of bits in a register, from device.rs. -/
structure RegisterField where
  bit_range : List Nat
deriving DecidableEq, Repr

/-- RegisterField::validate: the bit range must have exactly two entries,
in (high, low) order. -/
def RegisterField.validate (f : RegisterField) : Except String Unit :=
  if f.bit_range.length ≠ 2 then .error "Invalid bit range"
  else if f.bit_range.getD 0 0 < f.bit_range.getD 1 0 then .error "Invalid bit range"
  else .ok ()

/-- A u32 config register with its special values, from device.rs. -/
structure ConfigRegister where
  offset : Nat
  reset : Option Nat
  enable_debug : Option Nat
  disable_debug : Option Nat
  fields : List RegisterField
deriving DecidableEq, Repr

def validateFields : List RegisterField → Except String Unit
  | [] => .ok ()
  | f :: fs =>
    match f.validate with
    | .error e => .error e
    | .ok _ => validateFields fs

/-- ConfigRegister::validate: offset must be 4-byte aligned and every
field must validate. -/
def ConfigRegister.validate (r : ConfigRegister) : Except String Unit :=
  if r.offset % 4 ≠ 0 then .error "Config register offset must be 4-byte aligned"
  else validateFields r.fields

/-- An MCU chip variant, from device.rs. -/
structure Chip where
  chip_id : Nat
  alt_chip_ids : List Nat
  mcu_type : Nat
  device_type : Nat
  flash_size : Nat
  eeprom_size : Nat
  config_registers : List ConfigRegister
deriving DecidableEq, Repr

def validateRegisters : List ConfigRegister → Except String Unit
  | [] => .ok ()
  | r :: rs =>
    match r.validate with
    | .error e => .error e
    | .ok _ => validateRegisters rs

/-- Chip::validate: every config register must validate. -/
def Chip.validate (c : Chip) : Except String Unit :=
  validateRegisters c.config_registers

/-- An MCU family, from device.rs. -/
structure ChipFamily where
  mcu_type : Nat
  device_type : Nat
  variants : List Chip
  config_registers : List ConfigRegister
deriving DecidableEq, Repr

def validateVariants : List Chip → Except String Unit
  | [] => .ok ()
  | c :: cs =>
    match c.validate with
    | .error e => .error e
    | .ok _ => validateVariants cs

/-- ChipFamily::validate: validate every variant, then every family-level
config register.  This is the whole per-family check run by ChipDB::load
after parsing the YAML catalog. -/
def ChipFamily.validate (fam : ChipFamily) : Except String Unit :=
  match validateVariants fam.variants with
  | .error e => .error e
  | .ok _ => validateRegisters fam.config_registers

/-- Chip::device_type(): the computed device type, McuType + 0x10 in u8
arithmetic.  Named with a prime because the Chip struct also has a
device_type field (set from the family by find_chip). -/
def Chip.device_type' (c : Chip) : Nat := (c.mcu_type + 0x10) % 256

/-- Chip::min_erase_sector_number from device.rs. -/
def Chip.min_erase_sector_number (c : Chip) : Nat :=
  if c.device_type' = 0x10 then 4 else 8

/-- Chip::uid_size from device.rs. -/
def Chip.uid_size (c : Chip) : Nat :=
  if c.device_type' = 0x11 then 4 else 8

/-- Chip::support_code_flash_protect from device.rs. -/
def Chip.support_code_flash_protect (c : Chip) : Bool :=
  [0x14, 0x15, 0x17, 0x18, 0x19, 0x20].contains c.device_type'

/-- ChipDB::find_chip from device.rs: select the family by device type,
the variant by chip id or alternative chip id, then patch the variant
with family data.  The support_usb/serial/net patching is omitted with
those fields. -/
def ChipDB.find_chip (families : List ChipFamily) (chip_id : Nat) (device_type : Nat) :
    Except String Chip :=
  match families.find? (fun f => f.device_type == device_type) with
  | none => .error "Device type not found"
  | some family =>
    match family.variants.find? (fun c => c.chip_id == chip_id || c.alt_chip_ids.contains chip_id) with
    | none => .error "Cannot find chip"
    | some chip0 =>
      let chip1 := { chip0 with mcu_type := family.mcu_type, device_type := family.device_type }
      let chip2 := if chip_id ≠ chip1.chip_id then { chip1 with chip_id := chip_id } else chip1
      let chip3 :=
        if chip2.config_registers.isEmpty then
          { chip2 with config_registers := family.config_registers }
        else chip2
      .ok chip3

/-! The flashing session state, from flashing.rs (the transport handle is
replaced by the oracle passed to each operation). -/

structure Flashing where
  chip : Chip
  chip_uid : List Nat
  bootloader_version : List Nat
  code_flash_protected : Bool
deriving DecidableEq, Repr

/-- The transport, modelled as an oracle: the outcome of
Transport::transfer for each issued command. -/
def Oracle : Type := Command → Except String Response

/-- u8 wrapping sum of a byte list, as the fold with overflowing_add used
throughout flashing.rs. -/
def wrappingSum8 (l : List Nat) : Nat := l.foldl (fun acc x => (acc + x) % 256) 0

/-- Flashing::chip_uid(): the first uid_size bytes of the stored UID.
The source slice &chip_uid[..uid_size] panics when the stored UID is
shorter; theorems about it carry that length bound as a hypothesis.
Named with a prime because the struct field is also called chip_uid. -/
def Flashing.chip_uid' (f : Flashing) : List Nat :=
  f.chip_uid.take f.chip.uid_size

/-- Flashing::xor_key from flashing.rs: the XOR key for the all-zero key
seed: every byte is the u8 wrapping sum of the effective UID, and the
last byte additionally has chip_id added (wrapping). -/
def Flashing.xor_key (f : Flashing) : List Nat :=
  let checksum := wrappingSum8 f.chip_uid'
  (List.replicate 8 checksum).set 7 ((checksum + f.chip.chip_id) % 256)

/-- The local ISP_KEY checksum computed in Flashing::flash and
Flashing::verify: the u8 wrapping sum of the 8 XOR key bytes. -/
def Flashing.key_checksum (f : Flashing) : Nat := wrappingSum8 f.xor_key

/-- C3: the derived XOR key is [s; 8] with key[7] bumped by chip_id mod
256, where s is the u8 wrapping sum of the first uid_size bytes of the
UID and uid_size is 4 exactly for device type 0x11 (8 otherwise); the
expected ISP_KEY checksum is the u8 wrapping sum of the 8 key bytes.
The hypothesis hdt is the documented catalog invariant DeviceType =
McuType + 0x10 tying the struct field to the computed device type; hlen
rules out the panic of the source's UID slice. -/
theorem c3_xor_key_formula (f : Flashing)
    (hdt : f.chip.device_type = f.chip.device_type')
    (_hlen : f.chip.uid_size ≤ f.chip_uid.length) :
    f.xor_key =
      ((List.replicate 8 (wrappingSum8 (f.chip_uid.take (if f.chip.device_type = 0x11 then 4 else 8)))).set 7
        ((wrappingSum8 (f.chip_uid.take (if f.chip.device_type = 0x11 then 4 else 8)) + f.chip.chip_id) % 256)) ∧
    f.key_checksum = wrappingSum8 f.xor_key := by
  refine ⟨?_, rfl⟩
  rw [hdt]
  rfl

/-- Demonstration session for the C3 witness: a CH55x-style chip
(device type 0x11, hence uid_size 4). -/
def flashingDemoC3 : Flashing :=
  { chip :=
      { chip_id := 0x32, alt_chip_ids := [], mcu_type := 0x01, device_type := 0x11,
        flash_size := 0x10000, eeprom_size := 0, config_registers := [] },
    chip_uid := [1, 2, 3, 4, 5, 6, 7, 8],
    bootloader_version := [0, 2, 4, 0],
    code_flash_protected := false }

/-- Witness for C3 at a concrete session. -/
theorem c3_xor_key_formula_witness :
    flashingDemoC3.chip.device_type = flashingDemoC3.chip.device_type' ∧
    flashingDemoC3.chip.uid_size ≤ flashingDemoC3.chip_uid.length ∧
    (flashingDemoC3.xor_key =
      ((List.replicate 8 (wrappingSum8 (flashingDemoC3.chip_uid.take (if flashingDemoC3.chip.device_type = 0x11 then 4 else 8)))).set 7
        ((wrappingSum8 (flashingDemoC3.chip_uid.take (if flashingDemoC3.chip.device_type = 0x11 then 4 else 8)) + flashingDemoC3.chip.chip_id) % 256)) ∧
     flashingDemoC3.key_checksum = wrappingSum8 flashingDemoC3.xor_key) :=
  ⟨rfl, by decide, c3_xor_key_formula flashingDemoC3 rfl (by decide)⟩

/-! C4: what ChipFamily::validate actually checks. -/

/-- First duplicated variant for the C4 counterexample. -/
def dupVariantA : Chip :=
  { chip_id := 0x31, alt_chip_ids := [], mcu_type := 0, device_type := 0,
    flash_size := 0x4000, eeprom_size := 0, config_registers := [] }

/-- Second duplicated variant for the C4 counterexample: a distinct
variant carrying the same chip id. -/
def dupVariantB : Chip :=
  { chip_id := 0x31, alt_chip_ids := [], mcu_type := 0, device_type := 0,
    flash_size := 0x8000, eeprom_size := 0, config_registers := [] }

/-- A family holding two distinct variants with the same
(chip_id, device_type) pair. -/
def dupFamily : ChipFamily :=
  { mcu_type := 0x02, device_type := 0x12, variants := [dupVariantA, dupVariantB],
    config_registers := [] }

/-- C4 counterexample: the claim says the loader rejects a family in
which two distinct variants share a (chip_id, device_type) pair.  The
validation run by ChipDB::load accepts dupFamily, whose two distinct
variants both carry chip id 0x31 (and, within one family, the same
device type). -/
theorem c4_validate_accepts_duplicates :
    ChipFamily.validate dupFamily = .ok () ∧
    dupFamily.variants = [dupVariantA, dupVariantB] ∧
    dupVariantA ≠ dupVariantB ∧
    dupVariantA.chip_id = dupVariantB.chip_id := by
  exact ⟨rfl, rfl, by decide, rfl⟩

theorem validateVariants_congr (l l' : List Chip)
    (h : l.map Chip.config_registers = l'.map Chip.config_registers) :
    validateVariants l = validateVariants l' := by
  induction l generalizing l' with
  | nil => cases l' with
    | nil => rfl
    | cons c cs => simp at h
  | cons c cs ih =>
    cases l' with
    | nil => simp at h
    | cons c' cs' =>
      simp only [List.map_cons, List.cons.injEq] at h
      simp only [validateVariants, Chip.validate, h.1, ih cs' h.2]

/-- C4 amended: family validation performs no uniqueness check on chip
ids at all; its outcome depends only on the config registers of the
variants and of the family.  Hence two families that differ only in the
chip identities of their variants validate identically, and in
particular a family with duplicated (chip_id, device_type) pairs is
accepted whenever its registers are well-formed. -/
theorem c4_validate_ignores_chip_ids (fam fam' : ChipFamily)
    (hv : fam.variants.map Chip.config_registers = fam'.variants.map Chip.config_registers)
    (hr : fam.config_registers = fam'.config_registers) :
    ChipFamily.validate fam = ChipFamily.validate fam' := by
  unfold ChipFamily.validate
  rw [validateVariants_congr fam.variants fam'.variants hv, hr]

/-- A family like dupFamily but with distinct chip ids. -/
def dedupFamily : ChipFamily :=
  { mcu_type := 0x02, device_type := 0x12,
    variants := [dupVariantA, { dupVariantB with chip_id := 0x33 }],
    config_registers := [] }

/-- Witness for the C4 amended theorem at a concrete pair of families:
the duplicated family validates exactly like its deduplicated twin. -/
theorem c4_validate_ignores_chip_ids_witness :
    dupFamily.variants.map Chip.config_registers = dedupFamily.variants.map Chip.config_registers ∧
    dupFamily.config_registers = dedupFamily.config_registers ∧
    ChipFamily.validate dupFamily = ChipFamily.validate dedupFamily :=
  ⟨rfl, rfl, c4_validate_ignores_chip_ids dupFamily dedupFamily rfl rfl⟩

/-! C8: erase_code and the minimum sector count. -/

/-- Flashing::erase_code from flashing.rs: clamp the requested sector
count up to the chip minimum, issue ERASE, require an OK response. -/
def Flashing.erase_code (f : Flashing) (tr : Oracle) (sectors : Nat) :
    Except String Unit × List Command :=
  let min_sectors := f.chip.min_erase_sector_number
  let sectors := if sectors < min_sectors then min_sectors else sectors
  let cmd := Command.Erase sectors
  match tr cmd with
  | .error e => (.error e, [cmd])
  | .ok resp => if resp.is_ok then (.ok (), [cmd]) else (.error "erase failed", [cmd])

theorem erase_code_issues (f : Flashing) (tr : Oracle) (m : Nat) :
    (f.erase_code tr m).2 =
      [Command.Erase (if m < f.chip.min_erase_sector_number then f.chip.min_erase_sector_number else m)] := by
  simp only [Flashing.erase_code]
  cases h : tr (Command.Erase (if m < f.chip.min_erase_sector_number then f.chip.min_erase_sector_number else m)) with
  | error e => simp [h]
  | ok resp => cases resp with
    | Ok d => simp [h, Response.is_ok]
    | Err c d => simp [h, Response.is_ok]

/-- C8: for every requested sector count, erase_code issues ERASE with
the count clamped up to 4 sectors when the device type is 0x10 and 8
otherwise; in particular a request of 0 sectors issues 4 or 8.  The
hypothesis hdt is the catalog invariant DeviceType = McuType + 0x10. -/
theorem c8_erase_code_min_sectors (f : Flashing) (tr : Oracle) (n : Nat)
    (hdt : f.chip.device_type = f.chip.device_type') :
    (f.erase_code tr n).2 =
      [Command.Erase (if f.chip.device_type = 0x10 then max n 4 else max n 8)] ∧
    (f.erase_code tr 0).2 =
      [Command.Erase (if f.chip.device_type = 0x10 then 4 else 8)] := by
  have harith : ∀ m : Nat,
      (if m < f.chip.min_erase_sector_number then f.chip.min_erase_sector_number else m) =
        (if f.chip.device_type = 0x10 then max m 4 else max m 8) := by
    intro m
    rw [hdt]
    unfold Chip.min_erase_sector_number
    split_ifs <;> omega
  have h0 : (if (0 : Nat) < f.chip.min_erase_sector_number then f.chip.min_erase_sector_number else 0) =
      (if f.chip.device_type = 0x10 then 4 else 8) := by
    rw [hdt]
    unfold Chip.min_erase_sector_number
    split_ifs <;> omega
  exact ⟨by rw [erase_code_issues f tr n, harith n], by rw [erase_code_issues f tr 0, h0]⟩

/-- An oracle refusing every transfer, for witnesses that only inspect
the issued command list. -/
def refusingOracle : Oracle := fun _ => .error "no transport"

/-- Demonstration session for C8: a chip whose device type is 0x12. -/
def flashingDemoC8 : Flashing :=
  { chip :=
      { chip_id := 0x31, alt_chip_ids := [], mcu_type := 0x02, device_type := 0x12,
        flash_size := 0x10000, eeprom_size := 0, config_registers := [] },
    chip_uid := [1, 1, 1, 1, 1, 1, 1, 1],
    bootloader_version := [0, 2, 4, 0],
    code_flash_protected := false }

/-- Witness for C8 at a concrete session and request. -/
theorem c8_erase_code_min_sectors_witness :
    flashingDemoC8.chip.device_type = flashingDemoC8.chip.device_type' ∧
    ((flashingDemoC8.erase_code refusingOracle 5).2 =
      [Command.Erase (if flashingDemoC8.chip.device_type = 0x10 then max 5 4 else max 5 8)] ∧
     (flashingDemoC8.erase_code refusingOracle 0).2 =
      [Command.Erase (if flashingDemoC8.chip.device_type = 0x10 then 4 else 8)]) :=
  ⟨rfl, c8_erase_code_min_sectors flashingDemoC8 refusingOracle 5 rfl⟩

/-! C10: Flashing::unprotect. -/

/-- Flashing::unprotect from flashing.rs: when neither forced nor
protected, return Ok at once; otherwise read the config block, force the
RDPR/nRDPR bytes to a5 5a and the WPR register to all-ff, write it back
and reset the device (ISP_END 1).  The source takes &mut self but only
uses the transport; the session fields are never written, so the
embedding is a pure function of the session.  The source's panicking
slice payload[2..14] is modelled as a distinguished panic error. -/
def Flashing.unprotect (f : Flashing) (tr : Oracle) (force : Bool) :
    Except String Unit × List Command :=
  if !force && !f.code_flash_protected then (.ok (), [])
  else
    let c1 := Command.ReadConfig CFG_MASK_RDPR_USER_DATA_WPR
    match tr c1 with
    | .error e => (.error e, [c1])
    | .ok resp =>
      if !resp.is_ok then (.error "read_config failed", [c1])
      else if resp.payload.length < 14 then (.error "panic: slice index out of range", [c1])
      else
        let config := (resp.payload.drop 2).take 12
        let config := (config.set 0 0xa5).set 1 0x5a
        let config := config.take 8 ++ [0xff, 0xff, 0xff, 0xff]
        let c2 := Command.WriteConfig CFG_MASK_RDPR_USER_DATA_WPR config
        match tr c2 with
        | .error e => (.error e, [c1, c2])
        | .ok resp2 =>
          if !resp2.is_ok then (.error "write_config failed", [c1, c2])
          else
            let c3 := Command.IspEnd 1
            match tr c3 with
            | .error e => (.error e, [c1, c2, c3])
            | .ok resp3 =>
              if resp3.is_ok then (.ok (), [c1, c2, c3])
              else (.error "isp_end failed", [c1, c2, c3])

/-- C10: unprotect without force on an unprotected session returns Ok
immediately, issues no command at all (empty command trace), and --
the session being passed by value in the embedding, the source never
writing its fields -- leaves the session unchanged. -/
theorem c10_unprotect_noop (f : Flashing) (tr : Oracle)
    (h : f.code_flash_protected = false) :
    f.unprotect tr false = (.ok (), []) := by
  simp [Flashing.unprotect, h]

/-- Witness for C10 at a concrete session. -/
theorem c10_unprotect_noop_witness :
    flashingDemoC8.code_flash_protected = false ∧
    flashingDemoC8.unprotect refusingOracle false = (.ok (), []) :=
  ⟨rfl, c10_unprotect_noop flashingDemoC8 refusingOracle rfl⟩

/-! C7: the UID word checksum at session open. -/

/-- The 16-bit word condition checked in Flashing::check_chip_uid: the
little-endian u16 words at offsets 0, 2 and 4 of the effective UID,
summed with wrapping u16 addition, equal the word at offset 6. -/
def uidWordCheck (raw : List Nat) : Bool :=
  let w0 := raw.getD 0 0 % 256 + 256 * (raw.getD 1 0 % 256)
  let w2 := raw.getD 2 0 % 256 + 256 * (raw.getD 3 0 % 256)
  let w4 := raw.getD 4 0 % 256 + 256 * (raw.getD 5 0 % 256)
  let w6 := raw.getD 6 0 % 256 + 256 * (raw.getD 7 0 % 256)
  ((w0 + w2) % 65536 + w4) % 65536 == w6

/-- Flashing::check_chip_uid from flashing.rs: only chips with an 8-byte
effective UID are checked.  The source slices chip_uid[..uid_size]
(panic when shorter, modelled as a panic error); the four u16 preads it
then performs are always in bounds on the 8-byte slice. -/
def Flashing.check_chip_uid (f : Flashing) : Except String Unit :=
  if f.chip.uid_size = 8 then
    if f.chip.uid_size ≤ f.chip_uid.length then
      if uidWordCheck f.chip_uid' then .ok ()
      else .error "Chip UID checksum failed!"
    else .error "panic: slice index out of range"
  else .ok ()

/-- Flashing::get_chip from flashing.rs: identify the device and look the
reported (chip id, device type) pair up in the catalog.  The catalog that
ChipDB::load parses from the YAML device files (data not under src/) is
passed in as the families list. -/
def Flashing.get_chip (db : List ChipFamily) (tr : Oracle) : Except String Chip :=
  match tr (Command.Identify 0 0) with
  | .error e => .error e
  | .ok resp =>
    match resp.payload with
    | p0 :: p1 :: _ => ChipDB.find_chip db p0 p1
    | _ => .error "panic: index out of range"

/-- The part of Flashing::new_from_transport before the final UID check:
identify (requiring an OK response), look up the chip, read the full
config block, and build the session state from it.  Payload accesses up
to byte 17 panic in the source when the payload is shorter, modelled as
a panic error. -/
def Flashing.openPrefix (db : List ChipFamily) (tr : Oracle) : Except String Flashing :=
  match tr (Command.Identify 0 0) with
  | .error e => .error e
  | .ok resp =>
    if !resp.is_ok then .error "idenfity chip failed"
    else
      match Flashing.get_chip db tr with
      | .error e => .error e
      | .ok chip =>
        match tr (Command.ReadConfig CFG_MASK_ALL) with
        | .error e => .error e
        | .ok resp2 =>
          if !resp2.is_ok then .error "read_config failed"
          else if resp2.payload.length < 18 then .error "panic: slice index out of range"
          else
            .ok { chip := chip,
                  chip_uid := resp2.payload.drop 18,
                  bootloader_version := (resp2.payload.drop 14).take 4,
                  code_flash_protected :=
                    chip.support_code_flash_protect && !(resp2.payload.getD 2 0 == 0xa5) }

/-- Flashing::new_from_transport from flashing.rs: the open prefix
followed by check_chip_uid; the session is returned only when the check
passes. -/
def Flashing.new_from_transport (db : List ChipFamily) (tr : Oracle) : Except String Flashing :=
  match Flashing.openPrefix db tr with
  | .error e => .error e
  | .ok f =>
    match f.check_chip_uid with
    | .error e => .error e
    | .ok _ => .ok f

/-- C7: for a chip with an 8-byte effective UID, session open fails with
the UID checksum error unless the wrapping 16-bit word sum condition on
the UID holds (and succeeds when it does); for any other uid_size (the
4-byte case, device type 0x11) no such check is applied and the open
returns the session built by the prefix. -/
theorem c7_open_checks_uid_words (db : List ChipFamily) (tr : Oracle) (f : Flashing)
    (hopen : Flashing.openPrefix db tr = .ok f) :
    (f.chip.uid_size = 8 → 8 ≤ f.chip_uid.length →
      (uidWordCheck f.chip_uid' = false →
        Flashing.new_from_transport db tr = .error "Chip UID checksum failed!") ∧
      (uidWordCheck f.chip_uid' = true →
        Flashing.new_from_transport db tr = .ok f)) ∧
    (f.chip.uid_size ≠ 8 → Flashing.new_from_transport db tr = .ok f) := by
  unfold Flashing.new_from_transport
  rw [hopen]
  constructor
  · intro h8 hlen
    constructor
    · intro hw
      simp [Flashing.check_chip_uid, h8, hlen, hw]
    · intro hw
      simp [Flashing.check_chip_uid, h8, hlen, hw]
  · intro h8
    simp [Flashing.check_chip_uid, h8]

/-- Catalog variant used by the C7 witness. -/
def chipDemoC7 : Chip :=
  { chip_id := 0x31, alt_chip_ids := [], mcu_type := 0, device_type := 0,
    flash_size := 0x10000, eeprom_size := 0, config_registers := [] }

/-- Single-family catalog used by the C7 witness. -/
def dbDemo : List ChipFamily :=
  [{ mcu_type := 0x02, device_type := 0x12, variants := [chipDemoC7], config_registers := [] }]

/-- Transport oracle used by the C7 witness: identifies as chip 0x31 of
device type 0x12 and reports a config block whose UID satisfies the
word-sum condition (1 + 2 + 3 = 6). -/
def trDemoC7 : Oracle := fun c =>
  match c with
  | .Identify _ _ => .ok (.Ok [0x31, 0x12])
  | .ReadConfig _ =>
      .ok (.Ok ([0, 0, 0xa5] ++ List.replicate 11 0 ++ [0, 2, 4, 0] ++ [1, 0, 2, 0, 3, 0, 6, 0]))
  | _ => .error "unexpected command"

/-- The session built by the open prefix in the C7 witness run. -/
def fDemoC7 : Flashing :=
  { chip :=
      { chip_id := 0x31, alt_chip_ids := [], mcu_type := 0x02, device_type := 0x12,
        flash_size := 0x10000, eeprom_size := 0, config_registers := [] },
    chip_uid := [1, 0, 2, 0, 3, 0, 6, 0],
    bootloader_version := [0, 2, 4, 0],
    code_flash_protected := false }

/-- Witness for C7 at a concrete catalog, transport and session. -/
theorem c7_open_checks_uid_words_witness :
    Flashing.openPrefix dbDemo trDemoC7 = .ok fDemoC7 ∧
    fDemoC7.chip.uid_size = 8 ∧
    uidWordCheck fDemoC7.chip_uid' = true ∧
    Flashing.new_from_transport dbDemo trDemoC7 = .ok fDemoC7 :=
  ⟨by rfl, by decide, by decide,
    ((c7_open_checks_uid_words dbDemo trDemoC7 fDemoC7 (by rfl)).1
      (by decide) (by decide)).2 (by decide)⟩

/-! C2: ISP_KEY checksum verification in flash, verify and write_eeprom. -/

/-- Fueled helper for chunks56, structurally recursive on the fuel so
that it reduces by kernel computation; every step consumes at least one
list element, so fuel equal to the list length always suffices and the
zero-fuel arm with a nonempty list is unreachable from chunks56. -/
def chunks56Fuel : Nat → List Nat → List (List Nat)
  | _, [] => []
  | 0, _ :: _ => []
  | fuel + 1, x :: xs => ((x :: xs).take 56) :: chunks56Fuel fuel ((x :: xs).drop 56)

/-- slice::chunks(56) on a byte slice: the consecutive chunks of at most
56 bytes, none for the empty slice. -/
def chunks56 (l : List Nat) : List (List Nat) := chunks56Fuel l.length l

/-- The per-chunk XOR encryption of flash_chunk, write_data_chunk and
verify_chunk: byte i is xored with key byte i mod 8. -/
def xorWithKey (key : List Nat) (raw : List Nat) : List Nat :=
  raw.enum.map fun p => p.2 ^^^ key.getD (p.1 % 8) 0

/-- The chunk loop of Flashing::flash, inlining flash_chunk: one PROGRAM
command per chunk, with the fresh random padding modelled as rng applied
to the chunk index; requires an OK response per chunk.  Returns the
address after the last chunk written. -/
def flash_loop (tr : Oracle) (rng : Nat → Nat) (key : List Nat) :
    List (List Nat) → Nat → Nat → List Command → Except String Nat × List Command
  | [], _, address, trace => (.ok address, trace)
  | ch :: rest, i, address, trace =>
    let cmd := Command.Program address (rng i) (xorWithKey key ch)
    match tr cmd with
    | .error e => (.error e, trace ++ [cmd])
    | .ok resp =>
      if resp.is_ok then flash_loop tr rng key rest (i + 1) (address + ch.length) (trace ++ [cmd])
      else (.error "program failed", trace ++ [cmd])

/-- The chunk loop of Flashing::write_eeprom, inlining write_data_chunk:
one DATA_PROGRAM command per chunk. -/
def data_loop (tr : Oracle) (rng : Nat → Nat) (key : List Nat) :
    List (List Nat) → Nat → Nat → List Command → Except String Nat × List Command
  | [], _, address, trace => (.ok address, trace)
  | ch :: rest, i, address, trace =>
    let cmd := Command.DataProgram address (rng i) (xorWithKey key ch)
    match tr cmd with
    | .error e => (.error e, trace ++ [cmd])
    | .ok resp =>
      if resp.is_ok then data_loop tr rng key rest (i + 1) (address + ch.length) (trace ++ [cmd])
      else (.error "program data failed", trace ++ [cmd])

/-- The chunk loop of Flashing::verify, inlining verify_chunk: one VERIFY
command per chunk; requires an OK response and payload byte 0 equal to
0x00 (the source's payload[0] panics on an empty payload, modelled as a
panic error). -/
def verify_loop (tr : Oracle) (rng : Nat → Nat) (key : List Nat) :
    List (List Nat) → Nat → Nat → List Command → Except String Nat × List Command
  | [], _, address, trace => (.ok address, trace)
  | ch :: rest, i, address, trace =>
    let cmd := Command.Verify address (rng i) (xorWithKey key ch)
    match tr cmd with
    | .error e => (.error e, trace ++ [cmd])
    | .ok resp =>
      if !resp.is_ok then (.error "verify response failed", trace ++ [cmd])
      else
        match resp.payload with
        | [] => (.error "panic: index out of range", trace ++ [cmd])
        | b :: _ =>
          if b = 0 then verify_loop tr rng key rest (i + 1) (address + ch.length) (trace ++ [cmd])
          else (.error "Verify failed, mismatch", trace ++ [cmd])

/-- Flashing::flash from flashing.rs: send ISP_KEY with an all-zero
0x1e-byte seed, require an OK response whose payload byte 0 equals the
locally computed key checksum, then program all chunks followed by the
required empty PROGRAM write. -/
def Flashing.flash (f : Flashing) (tr : Oracle) (rng : Nat → Nat) (raw : List Nat) :
    Except String Unit × List Command :=
  let key := f.xor_key
  let c0 := Command.IspKey (List.replicate 0x1e 0)
  match tr c0 with
  | .error e => (.error e, [c0])
  | .ok resp =>
    if !resp.is_ok then (.error "isp_key failed", [c0])
    else
      match resp.payload with
      | [] => (.error "panic: index out of range", [c0])
      | b :: _ =>
        if b = f.key_checksum then
          match flash_loop tr rng key (chunks56 raw) 0 0 [c0] with
          | (.error e, trace) => (.error e, trace)
          | (.ok address, trace) =>
            let cmd := Command.Program address (rng (chunks56 raw).length) (xorWithKey key [])
            match tr cmd with
            | .error e => (.error e, trace ++ [cmd])
            | .ok resp2 =>
              if resp2.is_ok then (.ok (), trace ++ [cmd])
              else (.error "program failed", trace ++ [cmd])
        else (.error "isp_key checksum failed", [c0])

/-- Flashing::write_eeprom from flashing.rs: send ISP_KEY with the
all-zero seed and require only an OK response -- the checksum comparison
present in flash and verify is commented out in the source -- then write
all chunks with DATA_PROGRAM followed by the empty PROGRAM write (the
final empty write goes through flash_chunk, hence PROGRAM). -/
def Flashing.write_eeprom (f : Flashing) (tr : Oracle) (rng : Nat → Nat) (raw : List Nat) :
    Except String Unit × List Command :=
  let key := f.xor_key
  let c0 := Command.IspKey (List.replicate 0x1e 0)
  match tr c0 with
  | .error e => (.error e, [c0])
  | .ok resp =>
    if !resp.is_ok then (.error "isp_key failed", [c0])
    else
      match data_loop tr rng key (chunks56 raw) 0 0 [c0] with
      | (.error e, trace) => (.error e, trace)
      | (.ok address, trace) =>
        let cmd := Command.Program address (rng (chunks56 raw).length) (xorWithKey key [])
        match tr cmd with
        | .error e => (.error e, trace ++ [cmd])
        | .ok resp2 =>
          if resp2.is_ok then (.ok (), trace ++ [cmd])
          else (.error "program failed", trace ++ [cmd])

/-- Flashing::verify from flashing.rs: send ISP_KEY with the all-zero
seed, require an OK response whose payload byte 0 equals the locally
computed key checksum, then verify all chunks. -/
def Flashing.verify (f : Flashing) (tr : Oracle) (rng : Nat → Nat) (raw : List Nat) :
    Except String Unit × List Command :=
  let key := f.xor_key
  let c0 := Command.IspKey (List.replicate 0x1e 0)
  match tr c0 with
  | .error e => (.error e, [c0])
  | .ok resp =>
    if !resp.is_ok then (.error "isp_key failed", [c0])
    else
      match resp.payload with
      | [] => (.error "panic: index out of range", [c0])
      | b :: _ =>
        if b = f.key_checksum then
          match verify_loop tr rng key (chunks56 raw) 0 0 [c0] with
          | (.error e, trace) => (.error e, trace)
          | (.ok _, trace) => (.ok (), trace)
        else (.error "isp_key checksum failed", [c0])

theorem data_loop_congr (tr tr' : Oracle) (rng : Nat → Nat) (key : List Nat)
    (hagree : ∀ c, (∀ k, c ≠ Command.IspKey k) → tr' c = tr c) :
    ∀ cs i address trace,
      data_loop tr' rng key cs i address trace = data_loop tr rng key cs i address trace := by
  intro cs
  induction cs with
  | nil => intro i address trace; rfl
  | cons ch rest ih =>
    intro i address trace
    simp only [data_loop]
    rw [hagree (Command.DataProgram address (rng i) (xorWithKey key ch)) (by intro k h; cases h)]
    cases tr (Command.DataProgram address (rng i) (xorWithKey key ch)) with
    | error e => rfl
    | ok resp =>
      by_cases hok : resp.is_ok
      · simp [hok, ih]
      · simp [hok]

/-- C2 (amended): flash and verify require ISP_KEY payload byte 0 to
equal the locally computed checksum of the derived XOR key and fail with
the checksum error when it differs; write_eeprom performs no such
comparison: its behaviour with a mismatching checksum byte is identical
to its behaviour with the matching one (oracles agreeing on every
non-ISP_KEY command). -/
theorem c2_isp_key_checksum_checked (f : Flashing) (tr tr' : Oracle) (rng : Nat → Nat)
    (raw : List Nat) (b : Nat) (rest rest' : List Nat)
    (hk : tr (Command.IspKey (List.replicate 0x1e 0)) = .ok (Response.Ok (b :: rest)))
    (hb : b ≠ f.key_checksum)
    (hagree : ∀ c, (∀ k, c ≠ Command.IspKey k) → tr' c = tr c)
    (hk' : tr' (Command.IspKey (List.replicate 0x1e 0)) = .ok (Response.Ok (f.key_checksum :: rest'))) :
    f.flash tr rng raw = (.error "isp_key checksum failed", [Command.IspKey (List.replicate 0x1e 0)]) ∧
    f.verify tr rng raw = (.error "isp_key checksum failed", [Command.IspKey (List.replicate 0x1e 0)]) ∧
    f.write_eeprom tr' rng raw = f.write_eeprom tr rng raw := by
  refine ⟨?_, ?_, ?_⟩
  · simp only [Flashing.flash]
    rw [hk]
    simp [Response.is_ok, Response.payload, hb]
  · simp only [Flashing.verify]
    rw [hk]
    simp [Response.is_ok, Response.payload, hb]
  · simp only [Flashing.write_eeprom]
    rw [hk, hk']
    simp only [Response.is_ok, Bool.not_true, Bool.false_eq_true, if_false]
    rw [data_loop_congr tr tr' rng f.xor_key hagree]
    rcases hdl : data_loop tr rng f.xor_key (chunks56 raw) 0 0
        [Command.IspKey (List.replicate 0x1e 0)] with ⟨res, trace⟩
    cases res with
    | error e => rfl
    | ok address =>
      dsimp only
      rw [hagree (Command.Program address (rng (chunks56 raw).length) (xorWithKey f.xor_key []))
        (by intro k h; cases h)]

/-- Oracle for the C2 theorems: answers ISP_KEY with a payload byte that
differs from the demo session key checksum (which is 113). -/
def trDemoC2 : Oracle := fun c =>
  match c with
  | .IspKey _ => .ok (.Ok [114])
  | .Program _ _ _ => .ok (.Ok [])
  | .DataProgram _ _ _ => .ok (.Ok [])
  | _ => .error "unexpected command"

/-- Oracle for the C2 theorems: same as trDemoC2 except that the ISP_KEY
payload byte matches the demo session key checksum. -/
def trDemoC2' : Oracle := fun c =>
  match c with
  | .IspKey _ => .ok (.Ok [113])
  | .Program _ _ _ => .ok (.Ok [])
  | .DataProgram _ _ _ => .ok (.Ok [])
  | _ => .error "unexpected command"

/-- C2 counterexample: the claim says write_eeprom also verifies the
ISP_KEY checksum byte and fails on a mismatch.  On a session whose local
key checksum is 113, with the device answering ISP_KEY with byte 114,
write_eeprom runs to successful completion. -/
theorem c2_write_eeprom_skips_checksum :
    (114 : Nat) ≠ flashingDemoC8.key_checksum ∧
    flashingDemoC8.write_eeprom trDemoC2 (fun _ => 0) [] =
      (.ok (), [Command.IspKey (List.replicate 0x1e 0), Command.Program 0 0 []]) :=
  ⟨by decide, by rfl⟩

/-- Witness for the C2 amended theorem at a concrete session and pair of
oracles. -/
theorem c2_isp_key_checksum_checked_witness :
    flashingDemoC8.flash trDemoC2 (fun _ => 0) [] =
      (.error "isp_key checksum failed", [Command.IspKey (List.replicate 0x1e 0)]) ∧
    flashingDemoC8.verify trDemoC2 (fun _ => 0) [] =
      (.error "isp_key checksum failed", [Command.IspKey (List.replicate 0x1e 0)]) ∧
    flashingDemoC8.write_eeprom trDemoC2' (fun _ => 0) [] =
      flashingDemoC8.write_eeprom trDemoC2 (fun _ => 0) [] :=
  c2_isp_key_checksum_checked flashingDemoC8 trDemoC2 trDemoC2' (fun _ => 0) [] 114 [] []
    (by rfl) (by decide)
    (by intro c h
        cases c with
        | IspKey k => exact absurd rfl (h k)
        | _ => rfl)
    (by rfl)

/-! C5: the EEPROM dump sentinel. -/

/-- The while loop of Flashing::dump_eeprom.  Each iteration reads the
next chunk (at most 0x3a bytes, the remaining size computed with the
source's wrapping u16 subtraction), requires an OK response whose body
(payload minus the two echo bytes) has exactly the requested length,
treats the body [0xfe, 0x00] as the unsatisfiable-read failure,
accumulates the body and breaks after a short chunk; after the loop the
accumulated length must equal the EEPROM size.  The loop advances by at
least one byte per iteration or breaks, so the fuel passed by
dump_eeprom is never exhausted; the fuel branch is a modelling device. -/
def dump_loop (tr : Oracle) (eeprom_size : Nat) :
    Nat → Nat → List Nat → List Command → Except String (List Nat) × List Command
  | 0, _, _, trace => (.error "model fuel exhausted", trace)
  | fuel + 1, address, ret, trace =>
    if address < eeprom_size then
      let chunk_size := min 0x3a ((eeprom_size % 65536 + 65536 - address % 65536) % 65536)
      let cmd := Command.DataRead address chunk_size
      match tr cmd with
      | .error e => (.error e, trace ++ [cmd])
      | .ok resp =>
        if !resp.is_ok then (.error "data_read failed", trace ++ [cmd])
        else
          let body := resp.payload.drop 2
          if body.length ≠ chunk_size then (.error "data_read length mismatch", trace ++ [cmd])
          else if body = [0xfe, 0x00] then
            (.error "EEPROM read failed, required chunk size cannot be satisfied", trace ++ [cmd])
          else if chunk_size < 0x3a then
            (if (ret ++ body).length = eeprom_size then .ok (ret ++ body)
             else .error "EEPROM size mismatch", trace ++ [cmd])
          else dump_loop tr eeprom_size fuel (address + chunk_size) (ret ++ body) (trace ++ [cmd])
    else
      (if ret.length = eeprom_size then .ok ret else .error "EEPROM size mismatch", trace)

/-- Flashing::dump_eeprom from flashing.rs: refuse chips without EEPROM,
then run the chunked DATA_READ loop from address 0. -/
def Flashing.dump_eeprom (f : Flashing) (tr : Oracle) :
    Except String (List Nat) × List Command :=
  if f.chip.eeprom_size = 0 then (.error "Chip does not support EEPROM", [])
  else dump_loop tr f.chip.eeprom_size (f.chip.eeprom_size + 1) 0 [] []

/-- Session for the C5 counterexample: a chip with a 4-byte EEPROM. -/
def fDemoC5 : Flashing :=
  { chip :=
      { chip_id := 0x31, alt_chip_ids := [], mcu_type := 0x02, device_type := 0x12,
        flash_size := 0x10000, eeprom_size := 4, config_registers := [] },
    chip_uid := [1, 1, 1, 1, 1, 1, 1, 1],
    bootloader_version := [0, 2, 4, 0],
    code_flash_protected := false }

/-- Oracle for the C5 counterexample: every DATA_READ is answered with
the two echo bytes followed by the sentinel fe 00. -/
def trDemoC5 : Oracle := fun c =>
  match c with
  | .DataRead _ _ => .ok (.Ok [0, 0, 0xfe, 0x00])
  | _ => .error "unexpected command"

/-- C5 counterexample: the claim says a DATA_READ payload of exactly
[echo0, echo1, 0xfe, 0x00] makes dump_eeprom fail with the
unsatisfiable-read (UnsupportedOperation) error for every requested
chunk size.  With a 4-byte EEPROM the requested chunk size is 4, and the
dump instead fails with the length-mismatch error, because the length
check precedes the sentinel check in the source. -/
theorem c5_sentinel_needs_chunk_two :
    fDemoC5.dump_eeprom trDemoC5 =
      (.error "data_read length mismatch", [Command.DataRead 0 4]) ∧
    (Response.Ok [0, 0, 0xfe, 0x00]).payload.drop 2 = [0xfe, 0x00] :=
  ⟨by rfl, by rfl⟩

/-- C5 (amended): whenever a DATA_READ response payload is exactly the
two echo bytes followed by the sentinel fe 00, the dump iteration fails:
with the unsatisfiable-read (UnsupportedOperation) error exactly when
the requested chunk size is 2, and with the length-mismatch error for
every other requested chunk size. -/
theorem c5_sentinel_fails_dump (tr : Oracle) (es fuel address : Nat)
    (ret : List Nat) (trace : List Command) (e0 e1 : Nat)
    (haddr : address < es)
    (hresp : tr (Command.DataRead address (min 0x3a ((es % 65536 + 65536 - address % 65536) % 65536))) =
      .ok (Response.Ok [e0, e1, 0xfe, 0x00])) :
    dump_loop tr es (fuel + 1) address ret trace =
      (.error (if min 0x3a ((es % 65536 + 65536 - address % 65536) % 65536) = 2 then
          "EEPROM read failed, required chunk size cannot be satisfied"
        else "data_read length mismatch"),
       trace ++ [Command.DataRead address (min 0x3a ((es % 65536 + 65536 - address % 65536) % 65536))]) := by
  by_cases hcs : min 0x3a ((es % 65536 + 65536 - address % 65536) % 65536) = 2
  · rw [hcs] at hresp
    simp [dump_loop, haddr, hresp, Response.is_ok, Response.payload, hcs]
  · have hcs' : ¬((2 : Nat) = min 0x3a ((es % 65536 + 65536 - address % 65536) % 65536)) :=
      fun h => hcs h.symm
    simp [dump_loop, haddr, hresp, Response.is_ok, Response.payload, hcs, hcs']

/-- Witness for the C5 amended theorem: the concrete 4-byte-EEPROM run,
where the requested chunk size 4 produces the length-mismatch error. -/
theorem c5_sentinel_fails_dump_witness :
    dump_loop trDemoC5 4 5 0 [] [] =
      (.error (if min 0x3a ((4 % 65536 + 65536 - 0 % 65536) % 65536) = 2 then
          "EEPROM read failed, required chunk size cannot be satisfied"
        else "data_read length mismatch"),
       [] ++ [Command.DataRead 0 (min 0x3a ((4 % 65536 + 65536 - 0 % 65536) % 65536))]) :=
  c5_sentinel_fails_dump trDemoC5 4 4 0 [] [] 0 0 (by decide) (by rfl)

/-! C6: enable_debug / disable_debug config register rewriting. -/

/-- The n bytes of a block starting at a byte offset. -/
def byteSlice (l : List Nat) (off n : Nat) : List Nat := (l.drop off).take n

/-- scroll pwrite of a u32 (little endian) into a byte buffer, as used on
the config block in flashing.rs: error when the 4 bytes would run past
the end. -/
def pwrite32 (raw : List Nat) (off : Nat) (v : Nat) : Except String (List Nat) :=
  if off + 4 ≤ raw.length then .ok (raw.take off ++ u32le v ++ raw.drop (off + 4))
  else .error "pwrite out of bounds"

/-- The per-register body of the loops in Flashing::enable_debug and
Flashing::disable_debug: write the register's reset value at its offset
when present, then the picked debug value (enable_debug, respectively
disable_debug) when present. -/
def applyRegDebug (pick : ConfigRegister → Option Nat) (raw : List Nat)
    (reg : ConfigRegister) : Except String (List Nat) :=
  match (match reg.reset with
         | some v => pwrite32 raw reg.offset v
         | none => .ok raw) with
  | .error e => .error e
  | .ok raw1 =>
    match pick reg with
    | some v => pwrite32 raw1 reg.offset v
    | none => .ok raw1

/-- The whole register loop of enable_debug / disable_debug. -/
def applyRegsDebug (pick : ConfigRegister → Option Nat) :
    List ConfigRegister → List Nat → Except String (List Nat)
  | [], raw => .ok raw
  | r :: rs, raw =>
    match applyRegDebug pick raw r with
    | .error e => .error e
    | .ok raw1 => applyRegsDebug pick rs raw1

/-- The common body of Flashing::enable_debug and Flashing::disable_debug
(identical in the source up to the per-register debug field used): read
the config block, rewrite it register by register, write it back, read it
back. -/
def debug_op (pick : ConfigRegister → Option Nat) (f : Flashing) (tr : Oracle) :
    Except String Unit × List Command :=
  let c1 := Command.ReadConfig CFG_MASK_RDPR_USER_DATA_WPR
  match tr c1 with
  | .error e => (.error e, [c1])
  | .ok resp =>
    if !resp.is_ok then (.error "read_config failed", [c1])
    else
      match applyRegsDebug pick f.chip.config_registers (resp.payload.drop 2) with
      | .error e => (.error e, [c1])
      | .ok raw =>
        let c2 := Command.WriteConfig CFG_MASK_RDPR_USER_DATA_WPR raw
        match tr c2 with
        | .error e => (.error e, [c1, c2])
        | .ok resp2 =>
          if !resp2.is_ok then (.error "write_config failed", [c1, c2])
          else
            let c3 := Command.ReadConfig CFG_MASK_RDPR_USER_DATA_WPR
            match tr c3 with
            | .error e => (.error e, [c1, c2, c3])
            | .ok resp3 =>
              if !resp3.is_ok then (.error "read_config failed", [c1, c2, c3])
              else (.ok (), [c1, c2, c3])

/-- Flashing::enable_debug from flashing.rs. -/
def Flashing.enable_debug (f : Flashing) (tr : Oracle) : Except String Unit × List Command :=
  debug_op ConfigRegister.enable_debug f tr

/-- Flashing::disable_debug from flashing.rs. -/
def Flashing.disable_debug (f : Flashing) (tr : Oracle) : Except String Unit × List Command :=
  debug_op ConfigRegister.disable_debug f tr

/-- The per-register 4-byte value predicted by the amended C6 claim for
the block written back: the picked debug value when present, else the
reset value when present, else the original bytes. -/
def debugTarget (pick : ConfigRegister → Option Nat) (raw : List Nat)
    (r : ConfigRegister) : List Nat :=
  match pick r with
  | some v => u32le v
  | none =>
    match r.reset with
    | some v => u32le v
    | none => byteSlice raw r.offset 4

/-- Two config registers occupy disjoint 4-byte ranges. -/
def regsDisjoint (a b : ConfigRegister) : Prop :=
  a.offset + 4 ≤ b.offset ∨ b.offset + 4 ≤ a.offset

theorem pwrite32_length (raw : List Nat) (off v : Nat) (out : List Nat)
    (h : pwrite32 raw off v = .ok out) : out.length = raw.length := by
  unfold pwrite32 at h
  split at h
  · injection h with h
    subst h
    simp [u32le]
    omega
  · cases h

theorem byteSlice_pwrite32_self (raw : List Nat) (off v : Nat) (out : List Nat)
    (h : pwrite32 raw off v = .ok out) : byteSlice out off 4 = u32le v := by
  unfold pwrite32 at h
  split at h
  case isTrue hle =>
    injection h with h
    subst h
    unfold byteSlice
    rw [List.append_assoc, List.drop_append_eq_append_drop]
    have h1 : (raw.take off).drop off = [] := by
      apply List.drop_eq_nil_of_le
      simp
    have h2 : off - (raw.take off).length = 0 := by
      simp
      omega
    rw [h1, h2, List.nil_append, List.drop_zero, List.take_append_eq_append_take]
    have h3 : (u32le v).length = 4 := by simp [u32le]
    rw [List.take_of_length_le (le_of_eq h3), h3]
    simp
  case isFalse => cases h

theorem byteSlice_pwrite32_disjoint (raw : List Nat) (off v : Nat) (out : List Nat)
    (off' n : Nat) (hd : off' + n ≤ off ∨ off + 4 ≤ off')
    (h : pwrite32 raw off v = .ok out) : byteSlice out off' n = byteSlice raw off' n := by
  unfold pwrite32 at h
  split at h
  case isTrue hle =>
    injection h with h
    subst h
    unfold byteSlice
    rcases hd with hlt | hgt
    · rw [List.append_assoc, List.drop_append_eq_append_drop, List.take_append_eq_append_take]
      have h1 : off' - (raw.take off).length = 0 := by simp; omega
      have h2 : n - ((raw.take off).drop off').length = 0 := by simp; omega
      rw [h1, h2, List.take_zero, List.append_nil, List.drop_take]
      rw [List.take_take, min_eq_left (by omega : n ≤ off - off')]
    · rw [List.drop_append_eq_append_drop, List.drop_append_eq_append_drop]
      have h1 : (raw.take off).drop off' = [] := by
        apply List.drop_eq_nil_of_le
        simp
        omega
      have h2 : (u32le v).drop (off' - (raw.take off).length) = [] := by
        apply List.drop_eq_nil_of_le
        simp [u32le]
        omega
      rw [h1, h2, List.nil_append, List.nil_append, List.drop_drop]
      have h3 : off + 4 + (off' - (raw.take off ++ u32le v).length) = off' := by
        simp [u32le]
        omega
      rw [h3]
  case isFalse => cases h

theorem optWrite_ok (raw : List Nat) (off : Nat) (o : Option Nat)
    (h : off + 4 ≤ raw.length) :
    ∃ out, (match o with
            | some v => pwrite32 raw off v
            | none => Except.ok raw : Except String (List Nat)) = .ok out ∧
      out.length = raw.length := by
  cases o with
  | none => exact ⟨raw, rfl, rfl⟩
  | some v =>
    have hw : pwrite32 raw off v = .ok (raw.take off ++ u32le v ++ raw.drop (off + 4)) := by
      simp [pwrite32, h]
    exact ⟨_, hw, pwrite32_length raw off v _ hw⟩

theorem optWrite_length (raw : List Nat) (off : Nat) (o : Option Nat) (out : List Nat)
    (h : (match o with
          | some v => pwrite32 raw off v
          | none => Except.ok raw : Except String (List Nat)) = .ok out) :
    out.length = raw.length := by
  cases o with
  | none =>
    injection h with h
    subst h
    rfl
  | some v => exact pwrite32_length raw off v out h

theorem optWrite_slice_disjoint (raw : List Nat) (off : Nat) (o : Option Nat) (out : List Nat)
    (off' n : Nat) (hd : off' + n ≤ off ∨ off + 4 ≤ off')
    (h : (match o with
          | some v => pwrite32 raw off v
          | none => Except.ok raw : Except String (List Nat)) = .ok out) :
    byteSlice out off' n = byteSlice raw off' n := by
  cases o with
  | none =>
    injection h with h
    subst h
    rfl
  | some v => exact byteSlice_pwrite32_disjoint raw off v out off' n hd h

theorem applyRegDebug_length (pick : ConfigRegister → Option Nat) (raw : List Nat)
    (r : ConfigRegister) (out : List Nat)
    (h : applyRegDebug pick raw r = .ok out) : out.length = raw.length := by
  unfold applyRegDebug at h
  rcases h1 : (match r.reset with
               | some v => pwrite32 raw r.offset v
               | none => Except.ok raw : Except String (List Nat)) with e | raw1
  · rw [h1] at h
    cases h
  · rw [h1] at h
    have l1 := optWrite_length raw r.offset r.reset raw1 h1
    have l2 := optWrite_length raw1 r.offset (pick r) out h
    omega

theorem applyRegDebug_ok (pick : ConfigRegister → Option Nat) (raw : List Nat)
    (r : ConfigRegister) (h : r.offset + 4 ≤ raw.length) :
    ∃ out, applyRegDebug pick raw r = .ok out ∧ out.length = raw.length := by
  obtain ⟨raw1, h1, l1⟩ := optWrite_ok raw r.offset r.reset h
  obtain ⟨out, h2, l2⟩ := optWrite_ok raw1 r.offset (pick r) (by omega)
  refine ⟨out, ?_, by omega⟩
  unfold applyRegDebug
  rw [h1]
  exact h2

theorem applyRegDebug_slice_self (pick : ConfigRegister → Option Nat) (raw : List Nat)
    (r : ConfigRegister) (out : List Nat)
    (h : applyRegDebug pick raw r = .ok out) :
    byteSlice out r.offset 4 = debugTarget pick raw r := by
  unfold applyRegDebug at h
  rcases h1 : (match r.reset with
               | some v => pwrite32 raw r.offset v
               | none => Except.ok raw : Except String (List Nat)) with e | raw1
  · rw [h1] at h
    cases h
  · rw [h1] at h
    unfold debugTarget
    cases hp : pick r with
    | some v =>
      rw [hp] at h
      exact byteSlice_pwrite32_self raw1 r.offset v out h
    | none =>
      rw [hp] at h
      injection h with h
      subst h
      cases hr : r.reset with
      | some v =>
        rw [hr] at h1
        exact byteSlice_pwrite32_self raw r.offset v raw1 h1
      | none =>
        rw [hr] at h1
        injection h1 with h1
        subst h1
        rfl

theorem applyRegDebug_slice_disjoint (pick : ConfigRegister → Option Nat) (raw : List Nat)
    (r : ConfigRegister) (out : List Nat) (off' n : Nat)
    (hd : off' + n ≤ r.offset ∨ r.offset + 4 ≤ off')
    (h : applyRegDebug pick raw r = .ok out) :
    byteSlice out off' n = byteSlice raw off' n := by
  unfold applyRegDebug at h
  rcases h1 : (match r.reset with
               | some v => pwrite32 raw r.offset v
               | none => Except.ok raw : Except String (List Nat)) with e | raw1
  · rw [h1] at h
    cases h
  · rw [h1] at h
    have s1 := optWrite_slice_disjoint raw r.offset r.reset raw1 off' n hd h1
    have s2 := optWrite_slice_disjoint raw1 r.offset (pick r) out off' n hd h
    rw [s2, s1]

theorem applyRegsDebug_ok (pick : ConfigRegister → Option Nat) (regs : List ConfigRegister)
    (raw : List Nat) (hb : ∀ r ∈ regs, r.offset + 4 ≤ raw.length) :
    ∃ out, applyRegsDebug pick regs raw = .ok out ∧ out.length = raw.length := by
  induction regs generalizing raw with
  | nil => exact ⟨raw, rfl, rfl⟩
  | cons r0 rs ih =>
    obtain ⟨raw1, h1, l1⟩ := applyRegDebug_ok pick raw r0 (hb r0 (List.mem_cons_self r0 rs))
    obtain ⟨out, h2, l2⟩ := ih raw1 (fun r hr => by rw [l1]; exact hb r (List.mem_cons_of_mem r0 hr))
    refine ⟨out, ?_, by omega⟩
    simp only [applyRegsDebug]
    rw [h1]
    exact h2

theorem applyRegsDebug_slice_untouched (pick : ConfigRegister → Option Nat)
    (regs : List ConfigRegister) (raw out : List Nat) (off' n : Nat)
    (hd : ∀ r ∈ regs, off' + n ≤ r.offset ∨ r.offset + 4 ≤ off')
    (h : applyRegsDebug pick regs raw = .ok out) :
    byteSlice out off' n = byteSlice raw off' n := by
  induction regs generalizing raw with
  | nil =>
    injection h with h
    subst h
    rfl
  | cons r0 rs ih =>
    simp only [applyRegsDebug] at h
    rcases h1 : applyRegDebug pick raw r0 with e | raw1
    · rw [h1] at h
      cases h
    · rw [h1] at h
      have s1 := applyRegDebug_slice_disjoint pick raw r0 raw1 off' n
        (hd r0 (List.mem_cons_self r0 rs)) h1
      have s2 := ih raw1 (fun r hr => hd r (List.mem_cons_of_mem r0 hr)) h
      rw [s2, s1]

theorem applyRegsDebug_spec (pick : ConfigRegister → Option Nat)
    (regs : List ConfigRegister) (raw out : List Nat)
    (hb : ∀ r ∈ regs, r.offset + 4 ≤ raw.length)
    (hd : regs.Pairwise regsDisjoint)
    (h : applyRegsDebug pick regs raw = .ok out) :
    ∀ r ∈ regs, byteSlice out r.offset 4 = debugTarget pick raw r := by
  induction regs generalizing raw with
  | nil => intro r hr; cases hr
  | cons r0 rs ih =>
    simp only [applyRegsDebug] at h
    rcases h1 : applyRegDebug pick raw r0 with e | raw1
    · rw [h1] at h
      cases h
    · rw [h1] at h
      have l1 : raw1.length = raw.length := applyRegDebug_length pick raw r0 raw1 h1
      have hd0 : ∀ r' ∈ rs, regsDisjoint r0 r' := (List.pairwise_cons.mp hd).1
      have hdtl := (List.pairwise_cons.mp hd).2
      intro r hr
      rcases List.mem_cons.mp hr with rfl | hmem
      · have huntouched : byteSlice out r.offset 4 = byteSlice raw1 r.offset 4 :=
          applyRegsDebug_slice_untouched pick rs raw1 out r.offset 4
            (fun r' hr' => hd0 r' hr') h
        rw [huntouched]
        exact applyRegDebug_slice_self pick raw r raw1 h1
      · have hb1 : ∀ r' ∈ rs, r'.offset + 4 ≤ raw1.length := fun r' h' => by
          rw [l1]; exact hb r' (List.mem_cons_of_mem r0 h')
        have hmain := ih raw1 hb1 hdtl h r hmem
        rw [hmain]
        unfold debugTarget
        cases pick r with
        | some v => rfl
        | none =>
          cases r.reset with
          | some v => rfl
          | none =>
            exact applyRegDebug_slice_disjoint pick raw r0 raw1 r.offset 4
              (Or.symm (hd0 r hmem)) h1

theorem debug_op_shape (pick : ConfigRegister → Option Nat) (f : Flashing) (tr : Oracle)
    (pl : List Nat)
    (hread : tr (Command.ReadConfig CFG_MASK_RDPR_USER_DATA_WPR) = .ok (Response.Ok pl))
    (hb : ∀ r ∈ f.chip.config_registers, r.offset + 4 ≤ (pl.drop 2).length)
    (hd : f.chip.config_registers.Pairwise regsDisjoint) :
    ∃ B rest, applyRegsDebug pick f.chip.config_registers (pl.drop 2) = .ok B ∧
      (debug_op pick f tr).2 =
        Command.ReadConfig CFG_MASK_RDPR_USER_DATA_WPR ::
          Command.WriteConfig CFG_MASK_RDPR_USER_DATA_WPR B :: rest ∧
      ∀ r ∈ f.chip.config_registers,
        byteSlice B r.offset 4 = debugTarget pick (pl.drop 2) r := by
  obtain ⟨B, hB, _⟩ := applyRegsDebug_ok pick f.chip.config_registers (pl.drop 2) hb
  have hslice := applyRegsDebug_spec pick f.chip.config_registers (pl.drop 2) B hb hd hB
  have htrace : ∃ rest, (debug_op pick f tr).2 =
      Command.ReadConfig CFG_MASK_RDPR_USER_DATA_WPR ::
        Command.WriteConfig CFG_MASK_RDPR_USER_DATA_WPR B :: rest := by
    rcases h2 : tr (Command.WriteConfig CFG_MASK_RDPR_USER_DATA_WPR B) with e2 | resp2
    · refine ⟨[], ?_⟩
      simp [debug_op, hread, hB, h2, Response.is_ok, Response.payload]
    · cases resp2 with
      | Ok d =>
        refine ⟨[Command.ReadConfig CFG_MASK_RDPR_USER_DATA_WPR], ?_⟩
        simp [debug_op, hread, hB, h2, Response.is_ok, Response.payload]
      | Err c d =>
        refine ⟨[], ?_⟩
        simp [debug_op, hread, hB, h2, Response.is_ok, Response.payload]
  obtain ⟨rest, hrest⟩ := htrace
  exact ⟨B, rest, hB, hrest, hslice⟩

/-- C6 (amended): for enable_debug and disable_debug, the block written
back by WRITE_CONFIG rewrites each known register's 4 bytes at its
offset first with the register's reset value (when present) and then
with its enable_debug (respectively disable_debug) value (when present);
a register with neither value keeps its original bytes.  The claim's
assertion that registers without a debug value are left unchanged fails
when such a register carries a reset value.  Hypotheses: the read-back
block is large enough for every register and the registers' 4-byte
ranges do not overlap. -/
theorem c6_debug_writes_reset_then_debug (f : Flashing) (tr : Oracle) (pl : List Nat)
    (hread : tr (Command.ReadConfig CFG_MASK_RDPR_USER_DATA_WPR) = .ok (Response.Ok pl))
    (hb : ∀ r ∈ f.chip.config_registers, r.offset + 4 ≤ (pl.drop 2).length)
    (hd : f.chip.config_registers.Pairwise regsDisjoint) :
    (∃ B rest, applyRegsDebug ConfigRegister.enable_debug f.chip.config_registers (pl.drop 2) = .ok B ∧
      (f.enable_debug tr).2 =
        Command.ReadConfig CFG_MASK_RDPR_USER_DATA_WPR ::
          Command.WriteConfig CFG_MASK_RDPR_USER_DATA_WPR B :: rest ∧
      ∀ r ∈ f.chip.config_registers,
        byteSlice B r.offset 4 = debugTarget ConfigRegister.enable_debug (pl.drop 2) r) ∧
    (∃ B rest, applyRegsDebug ConfigRegister.disable_debug f.chip.config_registers (pl.drop 2) = .ok B ∧
      (f.disable_debug tr).2 =
        Command.ReadConfig CFG_MASK_RDPR_USER_DATA_WPR ::
          Command.WriteConfig CFG_MASK_RDPR_USER_DATA_WPR B :: rest ∧
      ∀ r ∈ f.chip.config_registers,
        byteSlice B r.offset 4 = debugTarget ConfigRegister.disable_debug (pl.drop 2) r) :=
  ⟨debug_op_shape ConfigRegister.enable_debug f tr pl hread hb hd,
   debug_op_shape ConfigRegister.disable_debug f tr pl hread hb hd⟩

/-- The register used by the C6 counterexample: a reset value is present
but no enable_debug / disable_debug value. -/
def regDemoC6 : ConfigRegister :=
  { offset := 0, reset := some 0x12345678, enable_debug := none, disable_debug := none,
    fields := [] }

/-- Session for the C6 counterexample. -/
def fDemoC6 : Flashing :=
  { chip :=
      { chip_id := 0x31, alt_chip_ids := [], mcu_type := 0x02, device_type := 0x12,
        flash_size := 0x10000, eeprom_size := 0, config_registers := [regDemoC6] },
    chip_uid := [1, 1, 1, 1, 1, 1, 1, 1],
    bootloader_version := [0, 2, 4, 0],
    code_flash_protected := false }

/-- Oracle for the C6 counterexample: the config read returns an all-zero
four-byte block (after the two echo bytes) and writes succeed. -/
def trDemoC6 : Oracle := fun c =>
  match c with
  | .ReadConfig _ => .ok (.Ok [0, 0, 0, 0, 0, 0])
  | .WriteConfig _ _ => .ok (.Ok [])
  | _ => .error "unexpected command"

/-- C6 counterexample: the claim says a register whose enable_debug value
is absent keeps its bytes unchanged in the block written back.  On a
register carrying reset = 0x12345678 but no enable_debug value, over an
all-zero read-back block, enable_debug writes back 78 56 34 12 in place
of 00 00 00 00. -/
theorem c6_reset_overwrites_without_debug_value :
    fDemoC6.enable_debug trDemoC6 =
      (.ok (), [Command.ReadConfig CFG_MASK_RDPR_USER_DATA_WPR,
        Command.WriteConfig CFG_MASK_RDPR_USER_DATA_WPR [0x78, 0x56, 0x34, 0x12],
        Command.ReadConfig CFG_MASK_RDPR_USER_DATA_WPR]) ∧
    regDemoC6.enable_debug = none ∧
    byteSlice [0x78, 0x56, 0x34, 0x12] regDemoC6.offset 4 ≠ byteSlice [0, 0, 0, 0] regDemoC6.offset 4 :=
  ⟨by rfl, rfl, by decide⟩

/-- Witness for the C6 amended theorem at the concrete session. -/
theorem c6_debug_writes_reset_then_debug_witness :
    trDemoC6 (Command.ReadConfig CFG_MASK_RDPR_USER_DATA_WPR) = .ok (Response.Ok [0, 0, 0, 0, 0, 0]) ∧
    ((∃ B rest, applyRegsDebug ConfigRegister.enable_debug fDemoC6.chip.config_registers
        (List.drop 2 [0, 0, 0, 0, 0, 0]) = .ok B ∧
      (fDemoC6.enable_debug trDemoC6).2 =
        Command.ReadConfig CFG_MASK_RDPR_USER_DATA_WPR ::
          Command.WriteConfig CFG_MASK_RDPR_USER_DATA_WPR B :: rest ∧
      ∀ r ∈ fDemoC6.chip.config_registers,
        byteSlice B r.offset 4 = debugTarget ConfigRegister.enable_debug (List.drop 2 [0, 0, 0, 0, 0, 0]) r) ∧
     (∃ B rest, applyRegsDebug ConfigRegister.disable_debug fDemoC6.chip.config_registers
        (List.drop 2 [0, 0, 0, 0, 0, 0]) = .ok B ∧
      (fDemoC6.disable_debug trDemoC6).2 =
        Command.ReadConfig CFG_MASK_RDPR_USER_DATA_WPR ::
          Command.WriteConfig CFG_MASK_RDPR_USER_DATA_WPR B :: rest ∧
      ∀ r ∈ fDemoC6.chip.config_registers,
        byteSlice B r.offset 4 = debugTarget ConfigRegister.disable_debug (List.drop 2 [0, 0, 0, 0, 0, 0]) r)) :=
  ⟨rfl, c6_debug_writes_reset_then_debug fDemoC6 trDemoC6 [0, 0, 0, 0, 0, 0] rfl
    (by intro r hr; simp [fDemoC6, regDemoC6] at hr; subst hr; simp [regDemoC6])
    (by simp [fDemoC6])⟩

end Wchisp
